import Mathlib

/-!
Verification of the incremental Gmail synchronization engine
(`main.py` / `db_client.py` / `gmail_client.py`).

Shallow embedding conventions:
* Timestamps are `Nat` (seconds; the code works at second precision via
  the format string `%Y-%m-%d %H:%M:%S`).  `datetime.min` is modelled by
  the minimum timestamp `dtMin = 0`.
* Message identifiers are `Nat`: `gmail_client.fetch_emails` uses the
  IMAP sequence number `num` (`num.decode` is a faithful bijection from
  the byte string of digits to the number itself).
* Python dicts become structures; the fetch record built in
  `gmail_client.fetch_emails` has no `raw_email` key, which is modelled
  by `raw_email : Option String` being `none` there, while
  `db_client.store_emails` reads `email['raw_email']` (a `KeyError`,
  hence a skipped message, when the key is missing).
* Fallible external calls (the IMAP fetch, the Mongo queries) are
  passed in as `Except`/oracle values; a raised exception is `.error`.
-/

/-- Record shape produced by `gmail_client.fetch_emails` and consumed by
`db_client.store_emails` (a Python dict).  `raw_email = none` models the
absence of the `raw_email` key. -/
structure EmailRec where
  message_id : Nat
  subject : String
  sender : String
  received_at : Nat
  body : String
  raw_email : Option String
  processed : Bool
  deriving Repr, DecidableEq

/-- Document written into the Mongo `emails` collection by
`db_client.store_emails` (lines 86-95). -/
structure EmailDoc where
  message_id : Nat
  subject : String
  sender : String
  received_at : Nat
  body : String
  raw_email : String
  processed : Bool
  created_at : Nat
  deriving Repr, DecidableEq

/-- One message sitting in the IMAP mailbox: the header data that
`fetch_emails` extracts.  `date` is the parsed `Date` header. -/
structure MailboxMsg where
  subject : String
  sender : String
  date : Nat
  body : String
  deriving Repr, DecidableEq

/-- In-memory state of `EmailProcessor`: the watermark
(`last_check_time`) and the seen-set (`processed_message_ids`, a Python
set modelled as a list used through membership). -/
structure ProcState where
  last_check_time : Nat
  processed_message_ids : List Nat
  deriving Repr, DecidableEq

/-- Minimum representable timestamp (`datetime.min`). -/
def dtMin : Nat := 0

/-- Polling interval in seconds (`main.py` line 19). -/
def POLLING_INTERVAL : Nat := 60

/-- Document construction of `db_client.store_emails` lines 80-95: the
document carries the input fields, a hard-coded `processed = False` and
`created_at = utcnow()` (passed in as `now`).  Reading
`email['raw_email']` raises `KeyError` when the key is absent, which the
per-message handler turns into a skip; that is the `none` case. -/
def mkDocument (now : Nat) (e : EmailRec) : Option EmailDoc :=
  match e.raw_email with
  | none => none
  | some raw =>
    some { message_id := e.message_id, subject := e.subject,
           sender := e.sender, received_at := e.received_at,
           body := e.body, raw_email := raw,
           processed := false, created_at := now }

/-- Mongo `update_one({message_id: id}, {$set: document}, upsert=True)`
(`db_client.store_emails` lines 98-102): replace the first document whose
`message_id` matches, or append when none matches.  The boolean is
`result.upserted_id or result.modified_count` (line 104): true on insert,
and on update exactly when the stored document actually changed. -/
def upsertDoc (c : List EmailDoc) (d : EmailDoc) : List EmailDoc × Bool :=
  match c with
  | [] => ([d], true)
  | x :: xs =>
    if x.message_id = d.message_id then
      (d :: xs, if x = d then false else true)
    else
      let r := upsertDoc xs d
      (x :: r.1, r.2)

/-- Embedding of `db_client.store_emails`: iterate over the input
records; a record whose document cannot be built (missing `raw_email`)
or whose write raises (`fails` oracle, the per-message `except` at lines
107-109) is skipped; otherwise upsert and count when the write reports
an insert or a modification.  Returns the final collection and
`stored_count`. -/
def store_emails (fails : Nat → Bool) (now : Nat) :
    List EmailDoc → List EmailRec → List EmailDoc × Nat
  | c, [] => (c, 0)
  | c, e :: rest =>
    match mkDocument now e with
    | none => store_emails fails now c rest
    | some d =>
      if fails e.message_id then
        store_emails fails now c rest
      else
        let u := upsertDoc c d
        let r := store_emails fails now u.1 rest
        (r.1, (if u.2 then 1 else 0) + r.2)

/-- Per-message loop of `gmail_client.fetch_emails` (lines 138-177):
walk the mailbox in sequence-number order (numbers start at 1), skip a
message whose parsed date is strictly older than `after_date` (line
162), and otherwise emit the record of lines 170-177, whose
`message_id` is the sequence number and which has no `raw_email` key. -/
def fetchFrom (after_date : Nat) : Nat → List MailboxMsg → List EmailRec
  | _, [] => []
  | i, m :: ms =>
    if m.date < after_date then
      fetchFrom after_date (i + 1) ms
    else
      { message_id := i, subject := m.subject, sender := m.sender,
        received_at := m.date, body := m.body, raw_email := none,
        processed := false } :: fetchFrom after_date (i + 1) ms

/-- Embedding of `gmail_client.fetch_emails` with `max_results = None`
(as `main.py` calls it): sequence numbers start at 1. -/
def fetch_emails (after_date : Nat) (mbox : List MailboxMsg) : List EmailRec :=
  fetchFrom after_date 1 mbox

/-- Filter of `main.py` lines 67-70: keep the fetched records whose
`message_id` is not in the seen-set.  This exact list is what
`process_new_emails` passes to `store_emails`. -/
def newEmailsOf (st : ProcState) (emails : List EmailRec) : List EmailRec :=
  emails.filter (fun e => decide (e.message_id ∉ st.processed_message_ids))

/-- Embedding of `EmailProcessor.process_new_emails` (`main.py` lines
52-109).  A raised fetch exception is re-raised (lines 107-109) with no
state change; an empty fetch or an empty filtered list returns early;
otherwise the filtered list goes to `store_emails`, and when
`stored_count > 0` the watermark becomes the `received_at` of the FIRST
filtered record (`new_emails[0]`, lines 83-86) and the identifiers of
ALL filtered records are added to the seen-set (lines 88-90). -/
def process_new_emails (fails : Nat → Bool) (now : Nat)
    (fetchResult : Except Unit (List EmailRec))
    (st : ProcState) (c : List EmailDoc) :
    Except Unit (ProcState × List EmailDoc × Nat) :=
  match fetchResult with
  | .error e => .error e
  | .ok emails =>
    if emails.isEmpty then .ok (st, c, 0)
    else
      match newEmailsOf st emails with
      | [] => .ok (st, c, 0)
      | e0 :: rest =>
        if 0 < (store_emails fails now c (e0 :: rest)).2 then
          .ok ({ last_check_time := e0.received_at,
                 processed_message_ids := st.processed_message_ids ++
                   (e0 :: rest).map (fun e => e.message_id) },
               (store_emails fails now c (e0 :: rest)).1,
               (store_emails fails now c (e0 :: rest)).2)
        else
          .ok (st, (store_emails fails now c (e0 :: rest)).1,
               (store_emails fails now c (e0 :: rest)).2)

/-- One scheduler-guarded cycle: the `except Exception` of the main loop
(`main.py` lines 149-151) catches a raised cycle and keeps the previous
state, reporting zero stored. -/
def runCycleCaught (fails : Nat → Bool) (now : Nat)
    (fetchResult : Except Unit (List EmailRec))
    (st : ProcState) (c : List EmailDoc) :
    ProcState × List EmailDoc × Nat :=
  match process_new_emails fails now fetchResult st c with
  | .ok r => r
  | .error _ => (st, c, 0)

/-- Embedding of `EmailProcessor._get_last_check_time` (`main.py` lines
38-50).  The argument is the outcome of `db_client.get_latest_email`:
`.error` a raised query, `.ok none` no email in the store, `.ok (some
none)` a latest document without a `received_at` field, `.ok (some (some
t))` a latest document received at `t`.  Read-only: the store is
consumed as a value and never returned modified. -/
def get_last_check_time (q : Except Unit (Option (Option Nat))) : Nat :=
  match q with
  | .error _ => dtMin
  | .ok none => dtMin
  | .ok (some none) => dtMin
  | .ok (some (some t)) => t

/-- Embedding of `EmailProcessor._get_processed_message_ids` (`main.py`
lines 30-36): the stored identifiers on success, the empty set when the
store query raises. -/
def get_processed_message_ids (q : Except Unit (List Nat)) : List Nat :=
  match q with
  | .error _ => []
  | .ok ids => ids

/-- Outcome of one iteration body of the `while True` loop in `main`
(`main.py` lines 129-151): the body ran to completion, raised an
`Exception`, or raised `KeyboardInterrupt`. -/
inductive CycleOutcome where
  | ok : CycleOutcome
  | err : CycleOutcome
  | interrupt : CycleOutcome
  deriving Repr, DecidableEq, BEq

/-- Embedding of the scheduler loop of `main` (`main.py` lines 129-151)
over a finite trace of iteration outcomes.  Returns the list of sleep
durations performed (one `time.sleep(POLLING_INTERVAL)` per non-break
iteration: line 145 on success, line 151 on a caught `Exception`) and
whether the loop exited (`break` at line 148, only on
`KeyboardInterrupt`); an exhausted trace means the loop is still
running. -/
def mainLoop : List CycleOutcome → List Nat × Bool
  | [] => ([], false)
  | .interrupt :: _ => ([], true)
  | .ok :: rest =>
    let r := mainLoop rest
    (POLLING_INTERVAL :: r.1, r.2)
  | .err :: rest =>
    let r := mainLoop rest
    (POLLING_INTERVAL :: r.1, r.2)

/-- Spec-side definition, for comparison with the code: the maximum
`received_at` over a candidate list (the watermark the spec prescribes,
`max(timestamp)` over the filtered set). -/
def maxReceivedAt (l : List EmailRec) : Nat :=
  l.foldr (fun e m => max e.received_at m) 0

/-- Watermark of a cycle result, when the cycle did not raise. -/
def resultWatermark (r : Except Unit (ProcState × List EmailDoc × Nat)) :
    Option Nat :=
  r.toOption.map (fun x => x.1.last_check_time)

/-- Seen-set of a cycle result, when the cycle did not raise. -/
def resultSeen (r : Except Unit (ProcState × List EmailDoc × Nat)) :
    Option (List Nat) :=
  r.toOption.map (fun x => x.1.processed_message_ids)

/-- Stored count of a cycle result, when the cycle did not raise. -/
def resultCount (r : Except Unit (ProcState × List EmailDoc × Nat)) :
    Option Nat :=
  r.toOption.map (fun x => x.2.2)

/-- Identifiers of a stored collection. -/
def idsOf (c : List EmailDoc) : List Nat :=
  c.map (fun d => d.message_id)

/-- The store holds no two records with the same identifier (the
uniqueness invariant of the spec; it holds of the empty store and, as
proved below, is preserved by `upsertDoc`). -/
def NoDupIds (c : List EmailDoc) : Prop :=
  (idsOf c).Nodup

/-- Concrete fetched record: identifier 1, received at time 1. -/
def exA : EmailRec :=
  { message_id := 1, subject := "a", sender := "s", received_at := 1,
    body := "b", raw_email := some "r", processed := false }

/-- Concrete fetched record: identifier 2, received at time 2. -/
def exB : EmailRec :=
  { message_id := 2, subject := "a2", sender := "s2", received_at := 2,
    body := "b2", raw_email := some "r2", processed := false }

/-- Concrete fetched record: identifier 3, received at time 30. -/
def exC : EmailRec :=
  { message_id := 3, subject := "a3", sender := "s3", received_at := 30,
    body := "b3", raw_email := some "r3", processed := false }

/-- Concrete fetched record whose identifier 7 is already seen. -/
def exS : EmailRec :=
  { message_id := 7, subject := "a7", sender := "s7", received_at := 70,
    body := "b7", raw_email := some "r7", processed := false }

/-- Concrete fetched record carrying `processed = true` on input. -/
def exP : EmailRec :=
  { message_id := 4, subject := "p", sender := "sp", received_at := 40,
    body := "bp", raw_email := some "rp", processed := true }

/-- Document `store_emails` writes for `exA` at `now = 0`. -/
def docA : EmailDoc :=
  { message_id := 1, subject := "a", sender := "s", received_at := 1,
    body := "b", raw_email := "r", processed := false, created_at := 0 }

/-- Document `store_emails` writes for `exB` at `now = 0`. -/
def docB : EmailDoc :=
  { message_id := 2, subject := "a2", sender := "s2", received_at := 2,
    body := "b2", raw_email := "r2", processed := false, created_at := 0 }

/-- Document `store_emails` writes for `exC` at `now = 0`. -/
def docC : EmailDoc :=
  { message_id := 3, subject := "a3", sender := "s3", received_at := 30,
    body := "b3", raw_email := "r3", processed := false, created_at := 0 }

/-- Document `store_emails` writes for `exP` at `now = 0`; its
`processed` field is `false` although `exP` carried `true`. -/
def docP : EmailDoc :=
  { message_id := 4, subject := "p", sender := "sp", received_at := 40,
    body := "bp", raw_email := "rp", processed := false, created_at := 0 }

/-- A stored document with an unrelated identifier 99. -/
def docZ : EmailDoc :=
  { message_id := 99, subject := "z", sender := "sz", received_at := 5,
    body := "bz", raw_email := "rz", processed := false, created_at := 0 }

/-- First upsert payload for identifier 5. -/
def docP1 : EmailDoc :=
  { message_id := 5, subject := "q1", sender := "sq", received_at := 50,
    body := "x", raw_email := "rq1", processed := false, created_at := 0 }

/-- Second, different upsert payload for the same identifier 5. -/
def docP2 : EmailDoc :=
  { message_id := 5, subject := "q2", sender := "sq", received_at := 51,
    body := "y", raw_email := "rq2", processed := false, created_at := 1 }

/-- C1 counterexample run: empty state and store, fetch returns the
older record first (out of order), both records survive the filter and
both upserts succeed. -/
def cexRunC1 : Except Unit (ProcState × List EmailDoc × Nat) :=
  process_new_emails (fun _ => false) 0 (Except.ok [exA, exB])
    { last_check_time := 0, processed_message_ids := [] } []

/-- C2 counterexample run: three filtered candidates, the upsert of the
second one (identifier 2) raises, the other two succeed. -/
def cexRunC2 : Except Unit (ProcState × List EmailDoc × Nat) :=
  process_new_emails (fun i => i == 2) 0 (Except.ok [exA, exB, exC])
    { last_check_time := 0, processed_message_ids := [] } []

/-- Mailbox message used for the identifier-stability check. -/
def msgA : MailboxMsg :=
  { subject := "sub", sender := "frm", date := 10, body := "bod" }

/-- A second mailbox message, arriving before `msgA` in the mailbox. -/
def msgB : MailboxMsg :=
  { subject := "sub2", sender := "frm2", date := 11, body := "bod2" }

/-- Every record emitted by the per-message fetch loop has
`received_at` at least `after_date`: the skip at `gmail_client.py` line
162 discards strictly older candidates. -/
theorem fetchFrom_ge (after_date : Nat) :
    ∀ (i : Nat) (mbox : List MailboxMsg),
      ∀ e ∈ fetchFrom after_date i mbox, after_date ≤ e.received_at := by
  intro i mbox
  induction mbox generalizing i with
  | nil =>
    intro e he
    simp [fetchFrom] at he
  | cons m ms ih =>
    intro e he
    simp only [fetchFrom] at he
    by_cases hm : m.date < after_date
    · rw [if_pos hm] at he
      exact ih (i + 1) e he
    · rw [if_neg hm] at he
      rcases List.mem_cons.mp he with h | h
      · subst h
        exact Nat.le_of_not_lt hm
      · exact ih (i + 1) e h

/-- The engine's own timestamp filter: every candidate returned by
`fetch_emails after_date mbox` has `received_at ≥ after_date`. -/
theorem fetch_emails_ge (after_date : Nat) (mbox : List MailboxMsg) :
    ∀ e ∈ fetch_emails after_date mbox, after_date ≤ e.received_at :=
  fetchFrom_ge after_date 1 mbox

/-- Claim C1, counterexample: in a cycle that stores both candidates the
code sets the watermark to the `received_at` of the FIRST filtered
record (time 1), not the maximum over the filtered set (time 2). -/
theorem watermark_uses_first_not_max_cex :
    resultWatermark cexRunC1 = some 1 ∧
    resultWatermark cexRunC1 ≠
      some (maxReceivedAt (newEmailsOf
        { last_check_time := 0, processed_message_ids := [] } [exA, exB])) := by
  decide

/-- Claim C1 as amended: in every poll cycle in which at least one
message is stored, the new watermark equals the `received_at` of the
FIRST element of the filtered candidate set (`new_emails[0]`), which
coincides with the maximum only when the fetch result is ordered
newest-first. -/
theorem watermark_is_first_filtered
    (fails : Nat → Bool) (now : Nat) (emails : List EmailRec)
    (st : ProcState) (c : List EmailDoc)
    (st2 : ProcState) (c2 : List EmailDoc) (n : Nat)
    (e0 : EmailRec) (rest : List EmailRec)
    (hnew : newEmailsOf st emails = e0 :: rest)
    (hrun : process_new_emails fails now (Except.ok emails) st c =
      Except.ok (st2, c2, n))
    (hn : 0 < n) :
    st2.last_check_time = e0.received_at := by
  simp only [process_new_emails] at hrun
  split at hrun
  · simp only [Except.ok.injEq, Prod.mk.injEq] at hrun
    omega
  · split at hrun
    · rename_i heq
      rw [hnew] at heq
      exact (List.cons_ne_nil _ _ heq).elim
    · rename_i e0x restx heq
      rw [hnew] at heq
      injection heq with he hr
      subst he
      split at hrun
      · simp only [Except.ok.injEq, Prod.mk.injEq] at hrun
        obtain ⟨h1, h2, h3⟩ := hrun
        subst h1
        rfl
      · simp only [Except.ok.injEq, Prod.mk.injEq] at hrun
        omega

/-- Witness for the amended C1 theorem at a concrete cycle: two fresh
candidates `[exB, exA]`, both stored; the new watermark is
`exB.received_at`. -/
theorem watermark_is_first_filtered_witness :
    (⟨2, [2, 1]⟩ : ProcState).last_check_time = exB.received_at :=
  watermark_is_first_filtered (fun _ => false) 0 [exB, exA]
    ⟨0, []⟩ [] ⟨2, [2, 1]⟩ [docB, docA] 2 exB [exA]
    (by decide) (by rfl) (by decide)

/-- Claim C2, counterexample: with 3 candidates and the 2nd upsert
failing, `stored_count = 2`, yet the post-cycle seen-set contains the
identifier of the failed candidate (2) as well: the code adds ALL
filtered candidates once any upsert succeeds. -/
theorem seen_set_includes_failed_upsert_cex :
    resultCount cexRunC2 = some 2 ∧
    resultSeen cexRunC2 = some [1, 2, 3] ∧
    (resultSeen cexRunC2).map (fun l => decide (2 ∈ l)) = some true := by
  decide

/-- Claim C2 as amended: whenever at least one upsert of the cycle
reports success, the identifiers of ALL filtered candidates — including
those whose individual upsert failed — are appended to the seen-set;
per-candidate failure does not keep a candidate out of the seen-set. -/
theorem seen_set_adds_all_filtered
    (fails : Nat → Bool) (now : Nat) (emails : List EmailRec)
    (st : ProcState) (c : List EmailDoc)
    (st2 : ProcState) (c2 : List EmailDoc) (n : Nat)
    (hrun : process_new_emails fails now (Except.ok emails) st c =
      Except.ok (st2, c2, n))
    (hn : 0 < n) :
    st2.processed_message_ids =
      st.processed_message_ids ++
        (newEmailsOf st emails).map (fun e => e.message_id) := by
  simp only [process_new_emails] at hrun
  split at hrun
  · simp only [Except.ok.injEq, Prod.mk.injEq] at hrun
    omega
  · split at hrun
    · simp only [Except.ok.injEq, Prod.mk.injEq] at hrun
      omega
    · rename_i e0x restx heq
      split at hrun
      · simp only [Except.ok.injEq, Prod.mk.injEq] at hrun
        obtain ⟨h1, h2, h3⟩ := hrun
        subst h1
        rw [heq]
      · simp only [Except.ok.injEq, Prod.mk.injEq] at hrun
        omega

/-- Witness for the amended C2 theorem at the 3-candidate cycle whose
2nd upsert fails: the whole filtered list, identifier 2 included, is
appended to the seen-set. -/
theorem seen_set_adds_all_filtered_witness :
    (⟨1, [1, 2, 3]⟩ : ProcState).processed_message_ids =
      (⟨0, []⟩ : ProcState).processed_message_ids ++
        (newEmailsOf ⟨0, []⟩ [exA, exB, exC]).map (fun e => e.message_id) :=
  seen_set_adds_all_filtered (fun i => i == 2) 0 [exA, exB, exC]
    ⟨0, []⟩ [] ⟨1, [1, 2, 3]⟩ [docA, docC] 2
    (by rfl) (by decide)

/-- Claim C3: the watermark is monotonically non-decreasing across poll
cycles.  For any cycle starting from any state, given that every fetched
candidate's timestamp is at least the since-timestamp (which
`fetch_emails` guarantees, see `fetch_emails_ge`), the watermark after
`process_new_emails` is at least the watermark before it. -/
theorem watermark_monotone
    (fails : Nat → Bool) (now : Nat) (emails : List EmailRec)
    (st : ProcState) (c : List EmailDoc)
    (st2 : ProcState) (c2 : List EmailDoc) (n : Nat)
    (hts : ∀ e ∈ emails, st.last_check_time ≤ e.received_at)
    (hrun : process_new_emails fails now (Except.ok emails) st c =
      Except.ok (st2, c2, n)) :
    st.last_check_time ≤ st2.last_check_time := by
  simp only [process_new_emails] at hrun
  split at hrun
  · simp only [Except.ok.injEq, Prod.mk.injEq] at hrun
    obtain ⟨h1, h2, h3⟩ := hrun
    subst h1
    exact le_refl _
  · split at hrun
    · simp only [Except.ok.injEq, Prod.mk.injEq] at hrun
      obtain ⟨h1, h2, h3⟩ := hrun
      subst h1
      exact le_refl _
    · rename_i e0x restx heq
      split at hrun
      · simp only [Except.ok.injEq, Prod.mk.injEq] at hrun
        obtain ⟨h1, h2, h3⟩ := hrun
        subst h1
        have hmem : e0x ∈ newEmailsOf st emails := by
          rw [heq]
          exact List.mem_cons_self e0x restx
        have hin : e0x ∈ emails := by
          have h4 : e0x ∈ emails ∧ e0x.message_id ∉ st.processed_message_ids := by
            simpa [newEmailsOf] using hmem
          exact h4.1
        exact hts e0x hin
      · simp only [Except.ok.injEq, Prod.mk.injEq] at hrun
        obtain ⟨h1, h2, h3⟩ := hrun
        subst h1
        exact le_refl _

/-- Witness for C3 at a concrete cycle: a single fresh candidate with a
timestamp above the watermark; the watermark does not decrease. -/
theorem watermark_monotone_witness :
    (⟨0, []⟩ : ProcState).last_check_time ≤
      (⟨1, [1]⟩ : ProcState).last_check_time :=
  watermark_monotone (fun _ => false) 0 [exA] ⟨0, []⟩ [] ⟨1, [1]⟩ [docA] 1
    (by decide) (by rfl)

/-- Helper for C4: a non-raising cycle that reports zero stored leaves
the processor state exactly as it was. -/
theorem process_ok_zero_state
    (fails : Nat → Bool) (now : Nat) (emails : List EmailRec)
    (st : ProcState) (c : List EmailDoc)
    (st2 : ProcState) (c2 : List EmailDoc) (n : Nat)
    (hrun : process_new_emails fails now (Except.ok emails) st c =
      Except.ok (st2, c2, n))
    (hn : n = 0) :
    st2 = st := by
  simp only [process_new_emails] at hrun
  split at hrun
  · simp only [Except.ok.injEq, Prod.mk.injEq] at hrun
    exact hrun.1.symm
  · split at hrun
    · simp only [Except.ok.injEq, Prod.mk.injEq] at hrun
      exact hrun.1.symm
    · rename_i e0x restx heq
      split at hrun
      · simp only [Except.ok.injEq, Prod.mk.injEq] at hrun
        omega
      · simp only [Except.ok.injEq, Prod.mk.injEq] at hrun
        exact hrun.1.symm

/-- Claim C4: a cycle mutates neither the watermark nor the seen-set
unless at least one upsert reports success.  Under the scheduler's
exception handling (`runCycleCaught`): whether the fetch raised, the
filter left nothing, or the store reported zero stored, a cycle whose
stored count is zero returns the processor state unchanged. -/
theorem no_success_no_state_change
    (fails : Nat → Bool) (now : Nat)
    (fetchResult : Except Unit (List EmailRec))
    (st : ProcState) (c : List EmailDoc)
    (h : (runCycleCaught fails now fetchResult st c).2.2 = 0) :
    (runCycleCaught fails now fetchResult st c).1 = st := by
  cases fetchResult with
  | error e => rfl
  | ok emails =>
    unfold runCycleCaught at h ⊢
    cases hp : process_new_emails fails now (Except.ok emails) st c with
    | error e => rfl
    | ok r =>
      rw [hp] at h
      obtain ⟨st2, c2, n⟩ := r
      exact process_ok_zero_state fails now emails st c st2 c2 n hp h

/-- Witness for C4 at a concrete cycle whose fetch raised: the state is
returned untouched. -/
theorem no_success_no_state_change_witness :
    (runCycleCaught (fun _ => false) 0 (Except.error ()) ⟨5, [7]⟩ []).1 =
      (⟨5, [7]⟩ : ProcState) :=
  no_success_no_state_change (fun _ => false) 0 (Except.error ()) ⟨5, [7]⟩ []
    (by decide)

/-- Claim C5: an identifier already in the seen-set leads to zero store
calls — the filtered list handed to `store_emails` contains no record
with that identifier, and more generally only records whose identifiers
were not in the seen-set. -/
theorem seen_ids_filtered_before_store
    (st : ProcState) (emails : List EmailRec) (X : Nat)
    (hX : X ∈ st.processed_message_ids) :
    (newEmailsOf st emails).filter (fun e => decide (e.message_id = X)) = [] ∧
    (newEmailsOf st emails).filter
      (fun e => decide (e.message_id ∈ st.processed_message_ids)) = [] := by
  constructor
  · rw [List.filter_eq_nil_iff]
    intro e he
    have h4 : e ∈ emails ∧ e.message_id ∉ st.processed_message_ids := by
      simpa [newEmailsOf] using he
    simp only [decide_eq_true_eq]
    intro hEq
    exact h4.2 (hEq ▸ hX)
  · rw [List.filter_eq_nil_iff]
    intro e he
    have h4 : e ∈ emails ∧ e.message_id ∉ st.processed_message_ids := by
      simpa [newEmailsOf] using he
    simpa using h4.2

/-- Witness for C5 at a concrete fetch: identifier 7 is in the seen-set
and returned again by the fetch; the list passed to the store contains
no record with identifier 7 and none whose identifier is seen. -/
theorem seen_ids_filtered_before_store_witness :
    (newEmailsOf ⟨0, [7]⟩ [exA, exS]).filter
      (fun e => decide (e.message_id = 7)) = [] ∧
    (newEmailsOf ⟨0, [7]⟩ [exA, exS]).filter
      (fun e => decide
        (e.message_id ∈ (⟨0, [7]⟩ : ProcState).processed_message_ids)) = [] :=
  seen_ids_filtered_before_store ⟨0, [7]⟩ [exA, exS] 7 (by decide)

/-- Claim C6, failing evaluation: `fetch_emails` assigns the IMAP
sequence number (the position in the mailbox at fetch time) as
`message_id`, so the very same message `msgA` (recognisable by its
`received_at = 10`) gets identifier 1 when the mailbox is `[msgA]` and
identifier 2 when the mailbox is `[msgB, msgA]`: the identifier is not
stable across fetches. -/
theorem seqnum_id_not_stable_across_fetches :
    (fetch_emails 0 [msgA]).map (fun e => (e.received_at, e.message_id))
      = [(10, 1)] ∧
    (fetch_emails 0 [msgB, msgA]).map (fun e => (e.received_at, e.message_id))
      = [(11, 1), (10, 2)] := by
  decide

/-- Claim C7: the scheduler loop sleeps exactly the configured interval
once per iteration whether the cycle succeeded or raised, never exits on
a cycle error, and exits exactly when an iteration raises
`KeyboardInterrupt`: over any finite outcome trace, the sleeps performed
are one `POLLING_INTERVAL` per outcome before the first interrupt, and
the loop has exited iff the trace contains an interrupt. -/
theorem scheduler_sleeps_interval_and_exits_only_on_interrupt
    (trace : List CycleOutcome) :
    mainLoop trace =
      ((trace.takeWhile (fun o => decide (o ≠ CycleOutcome.interrupt))).map
        (fun _ => POLLING_INTERVAL),
       trace.any (fun o => decide (o = CycleOutcome.interrupt))) := by
  induction trace with
  | nil => rfl
  | cons o rest ih =>
    cases o <;>
      simp [mainLoop, ih, List.takeWhile_cons, List.any_cons]

/-- Claim C8: bootstrap degrades instead of aborting.
`_get_last_check_time` returns the minimum representable timestamp both
when the store query raises and when the store holds no message (and
also when the latest document lacks a `received_at` field), and
`_get_processed_message_ids` returns the empty set when its store query
raises; both are pure reads of the query outcome, so neither mutates
store state nor propagates the failure. -/
theorem bootstrap_degrades_to_defaults :
    get_last_check_time (Except.error ()) = dtMin ∧
    get_last_check_time (Except.ok none) = dtMin ∧
    get_last_check_time (Except.ok (some none)) = dtMin ∧
    get_processed_message_ids (Except.error ()) = [] := by
  decide

/-- Every identifier present after an upsert was present before or is
the upserted identifier. -/
theorem ids_upsert_mem (c : List EmailDoc) (d : EmailDoc) :
    ∀ i ∈ idsOf (upsertDoc c d).1, i ∈ idsOf c ∨ i = d.message_id := by
  induction c with
  | nil =>
    intro i hi
    simp [upsertDoc, idsOf] at hi
    exact Or.inr hi
  | cons x xs ih =>
    intro i hi
    by_cases hx : x.message_id = d.message_id
    · simp [upsertDoc, hx, idsOf] at hi ⊢
      rcases hi with h | h
      · exact Or.inr h
      · exact Or.inl (Or.inr h)
    · simp [upsertDoc, hx, idsOf] at hi ⊢
      rcases hi with h | h
      · exact Or.inl (Or.inl h)
      · rcases ih i (by simpa [idsOf] using h) with h2 | h2
        · exact Or.inl (Or.inr (by simpa [idsOf] using h2))
        · exact Or.inr h2

/-- Upsert preserves the store's identifier-uniqueness invariant. -/
theorem nodup_upsert (c : List EmailDoc) (d : EmailDoc) (h : NoDupIds c) :
    NoDupIds (upsertDoc c d).1 := by
  induction c with
  | nil => simp [upsertDoc, NoDupIds, idsOf]
  | cons x xs ih =>
    by_cases hx : x.message_id = d.message_id
    · simp only [upsertDoc, if_pos hx, NoDupIds, idsOf, List.map_cons,
        List.nodup_cons] at h ⊢
      exact ⟨by rw [← hx]; exact h.1, h.2⟩
    · simp only [NoDupIds, idsOf, List.map_cons, List.nodup_cons] at h
      have h2 := ih h.2
      simp only [upsertDoc, if_neg hx, NoDupIds, idsOf, List.map_cons,
        List.nodup_cons]
      constructor
      · intro hmem
        rcases ids_upsert_mem xs d x.message_id
            (by simpa [idsOf] using hmem) with h3 | h3
        · exact h.1 (by simpa [idsOf] using h3)
        · exact hx h3
      · simpa [NoDupIds, idsOf] using h2

/-- A collection without documents of identifier `i` filters to nothing
on `i`. -/
theorem filter_id_nil (c : List EmailDoc) (i : Nat) (h : i ∉ idsOf c) :
    c.filter (fun x => decide (x.message_id = i)) = [] := by
  induction c with
  | nil => rfl
  | cons x xs ih =>
    simp only [idsOf, List.map_cons, List.mem_cons, not_or] at h
    have hx : decide (x.message_id = i) = false := by
      simp only [decide_eq_false_iff_not]
      intro he
      exact h.1 he.symm
    simp only [List.filter_cons, hx, Bool.false_eq_true, if_false]
    exact ih (by simpa [idsOf] using h.2)

/-- After an upsert into a duplicate-free collection, the documents with
the upserted identifier are exactly the upserted document. -/
theorem filter_upsert (c : List EmailDoc) (d : EmailDoc) (h : NoDupIds c) :
    (upsertDoc c d).1.filter
      (fun x => decide (x.message_id = d.message_id)) = [d] := by
  induction c with
  | nil => simp [upsertDoc]
  | cons x xs ih =>
    by_cases hx : x.message_id = d.message_id
    · simp only [upsertDoc, if_pos hx]
      have hnx : d.message_id ∉ idsOf xs := by
        simp only [NoDupIds, idsOf, List.map_cons, List.nodup_cons] at h
        rw [← hx]
        intro hm
        exact h.1 (by simpa [idsOf] using hm)
      simp [List.filter_cons, filter_id_nil xs d.message_id hnx]
    · simp only [NoDupIds, idsOf, List.map_cons, List.nodup_cons] at h
      simp only [upsertDoc, if_neg hx]
      simp [List.filter_cons, hx, ih (by simpa [NoDupIds, idsOf] using h.2)]

/-- Claim C9: storage is idempotent per identifier.  For every store
state satisfying the spec's uniqueness invariant (no two records with
one identifier — true of the empty store and preserved by every
upsert, see `nodup_upsert`), two successive upserts of the same
identifier with different payloads leave exactly one stored record for
that identifier, containing the latest payload, and the store still
holds no two records for any identifier. -/
theorem upsert_idempotent_per_id (c : List EmailDoc) (d1 d2 : EmailDoc)
    (hnd : NoDupIds c) (hid : d1.message_id = d2.message_id)
    (_hne : d1 ≠ d2) :
    ((upsertDoc (upsertDoc c d1).1 d2).1.filter
        (fun x => decide (x.message_id = d1.message_id)) = [d2]) ∧
    NoDupIds (upsertDoc (upsertDoc c d1).1 d2).1 := by
  have h1 := nodup_upsert c d1 hnd
  constructor
  · rw [hid]
    exact filter_upsert (upsertDoc c d1).1 d2 h1
  · exact nodup_upsert (upsertDoc c d1).1 d2 h1

/-- Witness for C9 at a concrete store: one unrelated record, then two
upserts of identifier 5 with different payloads; exactly the latest
payload remains for identifier 5 and identifiers stay duplicate-free. -/
theorem upsert_idempotent_per_id_witness :
    ((upsertDoc (upsertDoc [docZ] docP1).1 docP2).1.filter
        (fun x => decide (x.message_id = docP1.message_id)) = [docP2]) ∧
    NoDupIds (upsertDoc (upsertDoc [docZ] docP1).1 docP2).1 :=
  upsert_idempotent_per_id [docZ] docP1 docP2
    (by unfold NoDupIds; decide) (by decide) (by decide)

/-- A document present after an upsert was present before or is the
upserted document. -/
theorem mem_upsert (c : List EmailDoc) (d0 : EmailDoc) :
    ∀ d ∈ (upsertDoc c d0).1, d ∈ c ∨ d = d0 := by
  induction c with
  | nil =>
    intro d hd
    simp [upsertDoc] at hd
    exact Or.inr hd
  | cons x xs ih =>
    intro d hd
    by_cases hx : x.message_id = d0.message_id
    · simp only [upsertDoc, if_pos hx] at hd
      rcases List.mem_cons.mp hd with h | h
      · exact Or.inr h
      · exact Or.inl (List.mem_cons_of_mem x h)
    · simp only [upsertDoc, if_neg hx] at hd
      rcases List.mem_cons.mp hd with h | h
      · exact Or.inl (h ▸ List.mem_cons_self x xs)
      · rcases ih d h with h2 | h2
        · exact Or.inl (List.mem_cons_of_mem x h2)
        · exact Or.inr h2

/-- Every document built by `store_emails` carries `processed = false`
(hard-coded at `db_client.py` line 93). -/
theorem mkDocument_processed (now : Nat) (e : EmailRec) (d : EmailDoc)
    (h : mkDocument now e = some d) : d.processed = false := by
  unfold mkDocument at h
  cases he : e.raw_email with
  | none =>
    rw [he] at h
    exact absurd h (by simp)
  | some raw =>
    rw [he] at h
    injection h with h2
    subst h2
    rfl

/-- Every document in the collection after `store_emails` was already
stored before the call or has `processed = false`. -/
theorem store_mem_processed (fails : Nat → Bool) (now : Nat) :
    ∀ (emails : List EmailRec) (c : List EmailDoc),
      ∀ d ∈ (store_emails fails now c emails).1,
        d ∈ c ∨ d.processed = false := by
  intro emails
  induction emails with
  | nil =>
    intro c d hd
    exact Or.inl hd
  | cons e rest ih =>
    intro c d hd
    simp only [store_emails] at hd
    cases hm : mkDocument now e with
    | none =>
      rw [hm] at hd
      exact ih c d hd
    | some dd =>
      rw [hm] at hd
      by_cases hf : fails e.message_id
      · simp only [if_pos hf] at hd
        exact ih c d hd
      · simp only [if_neg hf] at hd
        rcases ih (upsertDoc c dd).1 d hd with h2 | h2
        · rcases mem_upsert c dd d h2 with h3 | h3
          · exact Or.inl h3
          · exact Or.inr (h3 ▸ mkDocument_processed now e dd hm)
        · exact Or.inr h2

/-- Claim C10: every document written by `store_emails` (present after
the call and not stored before it) has its `processed` field set to
`false`, no matter what `processed` value the input record carried; the
value is the literal `False` of `db_client.py` line 93, not a
configuration choice. -/
theorem stored_document_processed_false
    (fails : Nat → Bool) (now : Nat) (c : List EmailDoc)
    (emails : List EmailRec) (d : EmailDoc)
    (hd : d ∈ (store_emails fails now c emails).1) (hnc : d ∉ c) :
    d.processed = false := by
  rcases store_mem_processed fails now emails c d hd with h | h
  · exact absurd h hnc
  · exact h

/-- Witness for C10: storing the record `exP`, which carries
`processed = true`, writes the document `docP` whose `processed` is
`false`. -/
theorem stored_document_processed_false_witness :
    docP.processed = false :=
  stored_document_processed_false (fun _ => false) 0 [] [exP] docP
    (by decide) (by decide)
